import Mathlib

/-!
Verification of the ZFS exporter stat-mapping and traversal core

Shallow embedding of `main.go` of the `zfs_exporter` repository.

Conventions of the embedding:
* Go `uint64` values are modelled as `Nat`; the one place where a running
  `uint64` accumulation could wrap (the histogram cumulative count) keeps an
  explicit `% 2 ^ 64`.
* Go `float64` arithmetic is modelled exactly over `ℚ`; all concrete values
  the theorems touch are small enough that `float64` computes them exactly.
* A Go panic (failed type assertion, out-of-range slice index, `panic(err)`)
  and `log.Fatalf` terminate the process; functions that can do so return
  `Except Failure _`, and an `Except.error` result models a pass that died
  without serving a metrics response.
* Go maps (`vdev_stats_ex`, the pool map) are modelled as association lists;
  iteration order of a Go map is unspecified, and no theorem below depends on
  the order chosen.
-/

set_option autoImplicit false

/-- One entry of a positional stat schema (struct `stat` in `main.go`,
minus the `*prometheus.Desc` pointer, which is determined by `n` and
`dimension`; see `statDesc`). -/
structure Stat where
  n : String := ""
  d : String := ""
  dimension : String := ""
  variants : List String := []
deriving DecidableEq

/-- Table `zioNames` from `main.go`. -/
def zioNames : List String := ["null", "read", "write", "free", "claim", "ioctl"]

/-- The positional schema `vdevStats` from `main.go` (order is significant:
it mirrors the layout of the raw `vdev_stats` array). Entries with an empty
name consume one slot and emit nothing. -/
def vdevStats : List Stat := [
  {}, -- Skip timestamp
  { n := "state", d := "state (see pool_state_t)" },
  {}, -- Skip auxiliary pool state as it is only relevant for non-imported pools
  { n := "space_allocated_bytes", d := "allocated space in bytes" },
  { n := "space_capacity_bytes", d := "total capacity in bytes" },
  { n := "space_deflated_capacity_bytes", d := "deflated capacity in bytes" },
  { n := "devsize_replaceable", d := "replaceable device size" },
  { n := "devsize_expandable", d := "expandable device size" },
  { n := "ops", d := "I/O operations", dimension := "type", variants := zioNames },
  { n := "bytes", d := "bytes processed", dimension := "type", variants := zioNames },
  { n := "errors", d := "errors encountered", dimension := "type",
    variants := ["read", "write", "checksum", "initialize"] },
  { n := "self_healed_bytes", d := "bytes self-healed" },
  {}, -- Skip weird removed stat
  { n := "scan_processed_bytes", d := "bytes scanned" },
  { n := "fragmentation", d := "fragmentation" },
  { n := "initialize_processed_bytes", d := "bytes already initialized" },
  { n := "initialize_estimated_bytes", d := "estimated total number of bytes to initialize" },
  { n := "initialize_state", d := "initialize state (see initialize_state_t)" },
  { n := "initialize_action_time", d := "initialize time" },
  { n := "checkpoint_space_bytes", d := "checkpoint space in bytes" },
  { n := "resilver_deferred", d := "resilver deferred" },
  { n := "slow_ios", d := "slow I/O operations (30 seconds or more to complete)" },
  { n := "trim_errors", d := "trim errors" },
  { n := "trim_unsupported", d := "does not support TRIM" },
  { n := "trim_processed_bytes", d := "TRIMmed bytes" },
  { n := "trim_estimated_bytes", d := "estimated bytes to TRIM" },
  { n := "trim_state", d := "trim state" },
  { n := "trim_action_time", d := "trim time" },
  { n := "rebuild_processed_bytes", d := "bytes already rebuilt" },
  { n := "ashift_configured", d := "configured ashift" },
  { n := "ashift_logical", d := "logical ashift" },
  { n := "ashfit_physical", d := "physical ashift" },
  { n := "noalloc_status", d := "allocations halted?" },
  { n := "physical_capacity_bytes", d := "physical capacity" }]

/-- The positional schema `scanStats` from `main.go` (struct `pool_scan_stat`). -/
def scanStats : List Stat := [
  { n := "scan_func", d := "Pool scan function: 0 none, 1 scrub, 2 resilver, 3 rebuild (maybe)" },
  { n := "scan_state", d := "Pool scan state: 0 none, 1 scanning, 2 finished, 3 cancelled" },
  { n := "scan_start_time_seconds", d := "Pool scan start time" },
  { n := "scan_end_time_seconds", d := "Pool scan end time" },
  { n := "scan_to_examine_bytes", d := "Total bytes to scan" },
  { n := "scan_examined_bytes", d := "Total bytes examined" },
  { n := "scan_to_process_bytes", d := "Total bytes to process" },
  { n := "scan_processed_bytes", d := "Total bytes processed" },
  { n := "scan_errors", d := "Scan errors" },
  { n := "scan_pass_examined_bytes", d := "Examined bytes per scan pass" },
  { n := "scan_pass_start_seconds", d := "Start time of a scan pass" },
  { n := "scan_scrub_pause", d := "Pause time of a scrub pass" },
  { n := "scan_scrub_pause_time_spent", d := "Cumulative time the scrub spent paused" },
  { n := "scan_pass_issued_bytes", d := "Issued bytes per scan pass" },
  { n := "scan_issued_bytes", d := "Total bytes checked by scanner" }]

/-- Metric-descriptor names built once at startup in `main.go` via
`prometheus.NewDesc`; a descriptor is identified here by its metric name. -/
def activeQueueLength : String := "zfs_vdev_queue_active_length"

def pendingQueueLength : String := "zfs_vdev_queue_pending_length"

def queueLatency : String := "zfs_vdev_queue_latency"

def zioLatencyTotal : String := "zfs_vdev_zio_latency_total"

def zioLatencyDisk : String := "zfs_vdev_latency_disk"

def individualIOSize : String := "zfs_vdev_io_size_individual"

def aggregatedIOSize : String := "zfs_vdev_io_size_aggregated"

/-- Struct `extStat` from `main.go`: an extended-stat key mapped to a
descriptor and a fixed sub-label. -/
structure ExtStat where
  name : String
  desc : String
  label : String
deriving DecidableEq

/-- The table `extStats` from `main.go`, in source order. -/
def extStats : List ExtStat := [
  ⟨"vdev_agg_scrub_histo", aggregatedIOSize, "scrub"⟩,
  ⟨"vdev_agg_trim_histo", aggregatedIOSize, "trim"⟩,
  ⟨"vdev_async_agg_r_histo", aggregatedIOSize, "async_read"⟩,
  ⟨"vdev_async_agg_w_histo", aggregatedIOSize, "async_write"⟩,
  ⟨"vdev_async_ind_r_histo", individualIOSize, "async_read"⟩,
  ⟨"vdev_async_ind_w_histo", individualIOSize, "async_write"⟩,
  ⟨"vdev_async_r_active_queue", activeQueueLength, "async_read"⟩,
  ⟨"vdev_async_r_lat_histo", queueLatency, "async_read"⟩,
  ⟨"vdev_async_r_pend_queue", pendingQueueLength, "async_read"⟩,
  ⟨"vdev_async_scrub_active_queue", activeQueueLength, "scrub"⟩,
  ⟨"vdev_async_scrub_pend_queue", pendingQueueLength, "scrub"⟩,
  ⟨"vdev_async_trim_active_queue", activeQueueLength, "trim"⟩,
  ⟨"vdev_async_trim_pend_queue", pendingQueueLength, "trim"⟩,
  ⟨"vdev_async_w_active_queue", activeQueueLength, "async_write"⟩,
  ⟨"vdev_async_w_lat_histo", queueLatency, "async_write"⟩,
  ⟨"vdev_async_w_pend_queue", pendingQueueLength, "async_write"⟩,
  ⟨"vdev_disk_r_lat_histo", zioLatencyDisk, "read"⟩,
  ⟨"vdev_disk_w_lat_histo", zioLatencyDisk, "write"⟩,
  ⟨"vdev_ind_scrub_histo", individualIOSize, "scrub"⟩,
  ⟨"vdev_ind_trim_histo", individualIOSize, "trim"⟩,
  ⟨"vdev_scrub_histo", queueLatency, "scrub"⟩,
  ⟨"vdev_sync_agg_r_histo", aggregatedIOSize, "sync_read"⟩,
  ⟨"vdev_sync_agg_w_histo", aggregatedIOSize, "sync_write"⟩,
  ⟨"vdev_sync_ind_r_histo", individualIOSize, "sync_read"⟩,
  ⟨"vdev_sync_ind_w_histo", individualIOSize, "sync_write"⟩,
  ⟨"vdev_sync_r_active_queue", activeQueueLength, "sync_read"⟩,
  ⟨"vdev_sync_r_lat_histo", queueLatency, "sync_read"⟩,
  ⟨"vdev_sync_r_pend_queue", pendingQueueLength, "sync_read"⟩,
  ⟨"vdev_sync_w_active_queue", activeQueueLength, "sync_write"⟩,
  ⟨"vdev_sync_w_lat_histo", queueLatency, "sync_write"⟩,
  ⟨"vdev_sync_w_pend_queue", pendingQueueLength, "sync_write"⟩,
  ⟨"vdev_tot_r_lat_histo", zioLatencyTotal, "read"⟩,
  ⟨"vdev_tot_w_lat_histo", zioLatencyTotal, "write"⟩,
  ⟨"vdev_trim_histo", queueLatency, "trim"⟩,
  ⟨"vdev_rebuild_active_queue", activeQueueLength, "rebuild"⟩,
  ⟨"vdev_rebuild_pend_queue", pendingQueueLength, "rebuild"⟩,
  ⟨"vdev_ind_rebuild_histo", individualIOSize, "rebuild"⟩,
  ⟨"vdev_agg_rebuild_histo", aggregatedIOSize, "rebuild"⟩,
  ⟨"vdev_rebuild_histo", queueLatency, "rebuild"⟩]

/-- Lookup `extStatsMap[name]` from `main.go`: a Go map lookup that yields the
zero-valued `extStat` (whose `name` is `""`) when the key is absent. -/
def extStatsMapGo (name : String) : ExtStat :=
  match extStats.find? (fun s => s.name == name) with
  | some s => s
  | none => ⟨"", "", ""⟩

/-- The descriptor name `init` builds for a named `vdevStats` entry:
`prometheus.NewDesc("zfs_vdev_" + s.n, ...)`. -/
def statDesc (s : Stat) : String := "zfs_vdev_" ++ s.n

/-- The distinct ways a collection pass can die in `main.go`: a failed
runtime type assertion, an out-of-range slice index, `log.Fatalf`, and
`panic(err)` on a data-source failure. -/
inductive Failure where
  | typeAssert : Failure
  | indexOutOfRange : Failure
  | fatalLog : String → Failure
  | dsError : String → Failure
deriving DecidableEq

/-- A value stored under a key of the `vdev_stats_ex` map: in Go it is an
`interface{}` that the code expects to be a `uint64` scalar or a `[]uint64`
bucket array; `other` carries the dynamic type name of anything else (used
in the `log.Fatalf` message). -/
inductive ExVal where
  | scalar : Nat → ExVal
  | histo : List Nat → ExVal
  | other : String → ExVal
deriving DecidableEq

/-- A hierarchy node (`map[string]interface{}` in Go): each attribute the
code reads is an explicit optional field; `none` models an absent key (or a
key of the wrong dynamic type, for the comma-ok `path` read). -/
inductive Vdev where
  | mk (typ : Option String) (id : Option Nat) (path : Option String)
       (nparity : Option Nat) (draid_ndata : Option Nat) (draid_nspares : Option Nat)
       (vdev_stats : Option (List Nat)) (vdev_stats_ex : Option (List (String × ExVal)))
       (scan_stats : Option (List Nat)) (children : Option (List Vdev)) : Vdev

def Vdev.typ : Vdev → Option String
  | .mk t _ _ _ _ _ _ _ _ _ => t

def Vdev.id : Vdev → Option Nat
  | .mk _ i _ _ _ _ _ _ _ _ => i

def Vdev.path : Vdev → Option String
  | .mk _ _ p _ _ _ _ _ _ _ => p

def Vdev.nparity : Vdev → Option Nat
  | .mk _ _ _ np _ _ _ _ _ _ => np

def Vdev.draid_ndata : Vdev → Option Nat
  | .mk _ _ _ _ nd _ _ _ _ _ => nd

def Vdev.draid_nspares : Vdev → Option Nat
  | .mk _ _ _ _ _ ns _ _ _ _ => ns

def Vdev.vdev_stats : Vdev → Option (List Nat)
  | .mk _ _ _ _ _ _ st _ _ _ => st

def Vdev.vdev_stats_ex : Vdev → Option (List (String × ExVal))
  | .mk _ _ _ _ _ _ _ se _ _ => se

def Vdev.scan_stats : Vdev → Option (List Nat)
  | .mk _ _ _ _ _ _ _ _ ss _ => ss

def Vdev.children : Vdev → Option (List Vdev)
  | .mk _ _ _ _ _ _ _ _ _ c => c

/-- Replace the `children` attribute of a node, leaving every other
attribute unchanged (used to state that a function never reads `children`). -/
def Vdev.setChildren : Vdev → Option (List Vdev) → Vdev
  | .mk t i p np nd ns st se ss _, c => .mk t i p np nd ns st se ss c

/-- One metric observation sent on the collector channel: a constant metric
(`prometheus.MustNewConstMetric`, with its value kind) or a histogram
(`prometheus.MustNewConstHistogram`). Labels are the ordered label values. -/
inductive PromMetric where
  | const (desc : String) (kind : String) (value : ℚ) (labels : List String)
  | histogram (desc : String) (count : Nat) (sum : ℚ)
      (buckets : List (ℚ × Nat)) (labels : List String)
deriving DecidableEq

/-- The Go `%d` formatting of an `interface{}` holding a `uint64`, as used by
`fmt.Sprintf` in `vdevName`; a missing key (nil interface) prints as
`%!d(<nil>)`. -/
def fmtD : Option Nat → String
  | some n => toString n
  | none => "%!d(<nil>)"

/-- Function `vdevName` from `main.go`: derive the `vdev=` label for a node
from the resolved name of the parent and the attributes of the node.
`vdev["type"].(string)` and,
in the draid arm, `vdev["children"].([]map[string]interface{})` are hard
type assertions that panic when the key is absent. -/
def vdevName (parent : String) (vdev : Vdev) : Except Failure String :=
  match vdev.typ with
  | none => Except.error Failure.typeAssert
  | some typ =>
    if (typ = "disk" ∨ typ = "file") ∧ parent ≠ "" then
      Except.ok parent
    else
      let pfx := if parent ≠ "" then parent ++ "/" else parent
      if typ = "raidz" then
        Except.ok (pfx ++ typ ++ fmtD vdev.nparity ++ "-" ++ fmtD vdev.id)
      else if typ = "draid" then
        match vdev.children with
        | none => Except.error Failure.typeAssert
        | some children =>
          Except.ok (pfx ++ typ ++ fmtD vdev.nparity ++ ":" ++ fmtD vdev.draid_ndata
            ++ "d:" ++ toString children.length ++ "c:" ++ fmtD vdev.draid_nspares
            ++ "s-" ++ fmtD vdev.id)
      else
        Except.ok (pfx ++ typ ++ "-" ++ fmtD vdev.id)

/-- The midpoint the histogram loop computes for bucket `i` (local variable
`midpoint` in `main.go`; renamed here because Mathlib already has a
`midpoint`), in Go integer arithmetic: `(1 << i) + ((1 << i) / 2)`
(integer division truncates). -/
def midpointGo (i : Nat) : Nat := (1 <<< i) + ((1 <<< i) / 2)

/-- The body of the histogram loop in `reportVdevStats`, threading the
running cumulative count (a `uint64`, hence the `% 2 ^ 64`), the float
accumulator, and the bucket map built so far (as an ordered list keyed by
the strictly increasing upper bounds). -/
def histoLoop (divisor : ℚ) : List Nat → Nat → Nat → ℚ → (List (ℚ × Nat) × Nat × ℚ)
  | [], _, count, acc => ([], count, acc)
  | v :: rest, i, count, acc =>
    let count' := (count + v) % 2 ^ 64
    let acc' := acc + (v : ℚ) * (midpointGo i : ℚ)
    let r := histoLoop divisor rest (i + 1) count' acc'
    (((2 : ℚ) ^ i / divisor, count') :: r.1, r.2.1, r.2.2)

/-- The decoded form of a bucket array, as passed to
`prometheus.MustNewConstHistogram`. -/
structure HistResult where
  buckets : List (ℚ × Nat)
  count : Nat
  sum : ℚ
deriving DecidableEq

/-- The histogram-decoding block of `reportVdevStats` (`main.go` lines
349-369): a 37-entry array is nanoseconds and is normalized to seconds by
`divisor`; the approximate sum is the accumulator divided by the divisor. -/
def decodeHistogram (histo : List Nat) : HistResult :=
  let divisor : ℚ := if histo.length = 37 then 1000000000 else 1
  let r := histoLoop divisor histo 0 0 0
  ⟨r.1, r.2.1, r.2.2 / divisor⟩

/-- Function `filepath.Base` from the Go standard library, for slash-separated paths:
empty path gives `"."`, trailing slashes are stripped, an all-slash path
gives `"/"`, otherwise the last path component is returned. -/
def filepathBase (path : String) : String :=
  if path = "" then "."
  else
    let cs := (path.toList.reverse.dropWhile (fun c => c = '/')).reverse
    if cs = [] then "/"
    else String.mk (cs.reverse.takeWhile (fun c => c ≠ '/')).reverse

/-- The `path` label computation of `reportVdevStats`: absent (or
non-string) paths become `""`; otherwise the path is shortened to its base
name unless full paths were requested or the node is a file vdev. -/
def resolvePath (fullPath : Bool) (typ : String) : Option String → String
  | none => ""
  | some p => if ¬ fullPath ∧ typ ≠ "file" then filepathBase p else p

/-- The inner variants loop of the positional walk in `reportVdevStats`
(`main.go` lines 334-337): one raw slot is consumed per declared variant,
and `rawStats[i]` is indexed with no bound check, so running past the end
of the raw array is an index-out-of-range panic. On success it returns the
emitted metrics together with the updated slot index. -/
def walkVariants (desc vdName poolName path : String) (rawStats : List Nat) :
    List String → Nat → Except Failure (List PromMetric × Nat)
  | [], i => Except.ok ([], i)
  | v :: vs, i =>
    match rawStats.get? i with
    | none => Except.error Failure.indexOutOfRange
    | some x =>
      match walkVariants desc vdName poolName path rawStats vs (i + 1) with
      | Except.error e => Except.error e
      | Except.ok (ms, j) =>
        Except.ok (PromMetric.const desc "untyped" (x : ℚ) [vdName, poolName, path, v] :: ms, j)

/-- The positional walk of `reportVdevStats` (`main.go` lines 321-339):
iterate the schema against the raw array in lockstep, breaking when the
running slot index reaches the end of the raw array, skipping nameless
placeholder entries, and expanding variant entries via `walkVariants`. -/
def walkVdevStats (vdName poolName path : String) (rawStats : List Nat) :
    List Stat → Nat → Except Failure (List PromMetric)
  | [], _ => Except.ok []
  | s :: rest, i =>
    if i ≥ rawStats.length then Except.ok []
    else if s.n = "" then walkVdevStats vdName poolName path rawStats rest (i + 1)
    else if s.variants = [] then
      match rawStats.get? i with
      | none => Except.error Failure.indexOutOfRange
      | some x =>
        match walkVdevStats vdName poolName path rawStats rest (i + 1) with
        | Except.error e => Except.error e
        | Except.ok ms =>
          Except.ok (PromMetric.const (statDesc s) "untyped" (x : ℚ) [vdName, poolName, path] :: ms)
    else
      match walkVariants (statDesc s) vdName poolName path rawStats s.variants i with
      | Except.error e => Except.error e
      | Except.ok (ms, j) =>
        match walkVdevStats vdName poolName path rawStats rest j with
        | Except.error e => Except.error e
        | Except.ok more => Except.ok (ms ++ more)

/-- The extended-stats walk of `reportVdevStats` (`main.go` lines 341-373):
keys absent from `extStatsMap` are skipped before any look at the value;
scalar values emit a gauge, bucket arrays a histogram, and any other
dynamic type is `log.Fatalf`. -/
def extStatsWalk (vdName poolName path : String) :
    List (String × ExVal) → Except Failure (List PromMetric)
  | [] => Except.ok []
  | (name, val) :: rest =>
    let statMeta := extStatsMapGo name
    if statMeta.name = "" then extStatsWalk vdName poolName path rest
    else
      match val with
      | ExVal.scalar n =>
        match extStatsWalk vdName poolName path rest with
        | Except.error e => Except.error e
        | Except.ok ms =>
          Except.ok (PromMetric.const statMeta.desc "gauge" (n : ℚ)
            [statMeta.label, vdName, poolName, path] :: ms)
      | ExVal.histo h =>
        let r := decodeHistogram h
        match extStatsWalk vdName poolName path rest with
        | Except.error e => Except.error e
        | Except.ok ms =>
          Except.ok (PromMetric.histogram statMeta.desc r.count r.sum r.buckets
            [statMeta.label, vdName, poolName, path] :: ms)
      | ExVal.other t => Except.error (Failure.fatalLog ("invalid type encountered: " ++ t))

/-- Function `reportVdevStats` from `main.go`: child-count gauge if `children` is
present, nparity gauge if present, then the hard assertions on
`vdev_stats` and `type`, the `path` label resolution, the positional walk,
the hard assertion on `vdev_stats_ex`, and the extended-stats walk. An
`Except.error` models the Go panic / `log.Fatalf` killing the pass. -/
def reportVdevStats (fullPath : Bool) (poolName vdName : String) (vdev : Vdev) :
    Except Failure (List PromMetric) :=
  let childMs : List PromMetric :=
    match vdev.children with
    | some chld =>
      [PromMetric.const "zfs_vdev_children" "gauge" (chld.length : ℚ) [vdName, poolName]]
    | none => []
  let parityMs : List PromMetric :=
    match vdev.nparity with
    | some np => [PromMetric.const "zfs_vdev_nparity" "gauge" (np : ℚ) [vdName, poolName]]
    | none => []
  match vdev.vdev_stats with
  | none => Except.error Failure.typeAssert
  | some rawStats =>
    match vdev.typ with
    | none => Except.error Failure.typeAssert
    | some typ =>
      let path := resolvePath fullPath typ vdev.path
      match walkVdevStats vdName poolName path rawStats vdevStats 0 with
      | Except.error e => Except.error e
      | Except.ok posMs =>
        match vdev.vdev_stats_ex with
        | none => Except.error Failure.typeAssert
        | some exList =>
          match extStatsWalk vdName poolName path exList with
          | Except.error e => Except.error e
          | Except.ok exMs => Except.ok (childMs ++ parityMs ++ posMs ++ exMs)

mutual

/-- Function `descendVdev` from `main.go`: a node with no `children` key is a leaf
(`chld == nil` returns without an assertion); otherwise each child is
named, reported, and descended into. -/
def descendVdev (fullPath : Bool) (poolName parent : String) : Vdev → Except Failure (List PromMetric)
  | .mk _ _ _ _ _ _ _ _ _ none => Except.ok []
  | .mk _ _ _ _ _ _ _ _ _ (some kids) => descendKids fullPath poolName parent kids

/-- The loop body of `descendVdev` over the list of children. -/
def descendKids (fullPath : Bool) (poolName parent : String) : List Vdev → Except Failure (List PromMetric)
  | [] => Except.ok []
  | v :: rest =>
    match vdevName parent v with
    | Except.error e => Except.error e
    | Except.ok vdn =>
      match reportVdevStats fullPath poolName vdn v with
      | Except.error e => Except.error e
      | Except.ok ms =>
        match descendVdev fullPath poolName vdn v with
        | Except.error e => Except.error e
        | Except.ok sub =>
          match descendKids fullPath poolName parent rest with
          | Except.error e => Except.error e
          | Except.ok more => Except.ok (ms ++ sub ++ more)

end

/-- The scan-stats loop at the end of `Collect` (`main.go` lines 427-433):
walk `scanStats` positionally against the raw array, breaking when the
index reaches the end of the raw array. -/
def scanStatsWalk (poolName : String) (rawStats : List Nat) :
    List Stat → Nat → List PromMetric
  | [], _ => []
  | s :: rest, i =>
    match rawStats.get? i with
    | none => []
    | some v =>
      PromMetric.const ("zfs_pool_" ++ s.n) "gauge" (v : ℚ) [poolName]
        :: scanStatsWalk poolName rawStats rest (i + 1)

/-- The per-pool record returned by `ioctl.PoolStats` (a
`map[string]interface{}`): each attribute `Collect` reads is an explicit
optional field, read through a hard type assertion. -/
structure PoolStatsRec where
  pool_guid : Option Nat
  initial_load_time : Option (List Nat)
  error_count : Option Nat
  vdev_children : Option Nat
  txg : Option Nat
  vdev_tree : Option Vdev

/-- The external data source (`ioctl.PoolConfigs` / `ioctl.PoolStats`):
either call can fail, and `Collect` responds to a failure with
`panic(err)`. -/
structure DataSource where
  poolConfigs : Except String (List String)
  poolStats : String → Except String PoolStatsRec

/-- The command-line configuration consumed by the collector: the `-depth`
flag and the `-fullpath` flag. -/
structure Config where
  vdevDepth : Int
  fullPath : Bool

/-- The loop over top-level vdevs inside `Collect` (`main.go` lines
415-421), entered only when the configured depth is positive; a depth
greater than one also descends recursively. -/
def topLevelWalk (cfg : Config) (poolName : String) : List Vdev → Except Failure (List PromMetric)
  | [] => Except.ok []
  | vdev :: rest =>
    match vdevName "" vdev with
    | Except.error e => Except.error e
    | Except.ok vdn =>
      match reportVdevStats cfg.fullPath poolName vdn vdev with
      | Except.error e => Except.error e
      | Except.ok ms =>
        match (if cfg.vdevDepth > 1 then descendVdev cfg.fullPath poolName vdn vdev
               else Except.ok []) with
        | Except.error e => Except.error e
        | Except.ok sub =>
          match topLevelWalk cfg poolName rest with
          | Except.error e => Except.error e
          | Except.ok more => Except.ok (ms ++ sub ++ more)

/-- The per-pool body of `Collect` (`main.go` lines 395-434): the stats
call (`panic(err)` on failure), the pool-level gauges (each attribute read
through a hard assertion, and `initial_load_time` indexed at 0), the hard
assertions on `vdev_tree` and its `children`, the stats of the root node under
the identity `"root"`, the depth-gated top-level walk, and the optional
scan-stats walk. -/
def collectPool (cfg : Config) (ds : DataSource) (poolName : String) :
    Except Failure (List PromMetric) :=
  match ds.poolStats poolName with
  | Except.error e => Except.error (Failure.dsError e)
  | Except.ok stats =>
    match stats.pool_guid with
    | none => Except.error Failure.typeAssert
    | some guidN =>
      let guid := toString guidN
      match stats.initial_load_time with
      | none => Except.error Failure.typeAssert
      | some ltimes =>
        match ltimes.get? 0 with
        | none => Except.error Failure.indexOutOfRange
        | some lt0 =>
          match stats.error_count with
          | none => Except.error Failure.typeAssert
          | some errc =>
            match stats.vdev_children with
            | none => Except.error Failure.typeAssert
            | some vchild =>
              match stats.txg with
              | none => Except.error Failure.typeAssert
              | some txgv =>
                let poolMs : List PromMetric :=
                  [PromMetric.const "zfs_pool_load_time_seconds" "gauge" (lt0 : ℚ) [poolName, guid],
                   PromMetric.const "zfs_pool_errors" "gauge" (errc : ℚ) [poolName, guid],
                   PromMetric.const "zfs_pool_vdevs" "gauge" (vchild : ℚ) [poolName, guid],
                   PromMetric.const "zfs_pool_config_txg" "gauge" (txgv : ℚ) [poolName]]
                match stats.vdev_tree with
                | none => Except.error Failure.typeAssert
                | some vdevTree =>
                  match vdevTree.children with
                  | none => Except.error Failure.typeAssert
                  | some vdevs =>
                    match reportVdevStats cfg.fullPath poolName "root" vdevTree with
                    | Except.error e => Except.error e
                    | Except.ok rootMs =>
                      match (if cfg.vdevDepth > 0 then topLevelWalk cfg poolName vdevs
                             else Except.ok []) with
                      | Except.error e => Except.error e
                      | Except.ok childMs =>
                        let scanMs :=
                          match vdevTree.scan_stats with
                          | some raw => scanStatsWalk poolName raw scanStats 0
                          | none => []
                        Except.ok (poolMs ++ rootMs ++ childMs ++ scanMs)

/-- The loop of `Collect` over the discovered pools. -/
def collectPools (cfg : Config) (ds : DataSource) : List String → Except Failure (List PromMetric)
  | [] => Except.ok []
  | p :: rest =>
    match collectPool cfg ds p with
    | Except.error e => Except.error e
    | Except.ok ms =>
      match collectPools cfg ds rest with
      | Except.error e => Except.error e
      | Except.ok more => Except.ok (ms ++ more)

/-- Method `Collect` from `main.go`: list the pools (`panic(err)` on failure) and
process each one. The result is the full metrics response of one scrape,
or the failure that killed the process. -/
def collect (cfg : Config) (ds : DataSource) : Except Failure (List PromMetric) :=
  match ds.poolConfigs with
  | Except.error e => Except.error (Failure.dsError e)
  | Except.ok pools => collectPools cfg ds pools

/-- A leaf disk node with present (empty) stats arrays. -/
def diskNode : Vdev :=
  Vdev.mk (some "disk") (some 0) (some "/dev/sda1") none none none (some []) (some []) none none

/-- The draid example of the specification: parity 1, 8 data, 2 spares,
10 children, id 0. -/
def draidNode : Vdev :=
  Vdev.mk (some "draid") (some 0) none (some 1) (some 8) (some 2) (some []) (some []) none
    (some (List.replicate 10 diskNode))

/-- A draid node whose `children` key is absent. -/
def draidNoChildren : Vdev :=
  Vdev.mk (some "draid") (some 0) none (some 1) (some 8) (some 2) (some []) (some []) none none

/-- A mirror node with no children. -/
def mirrorNode : Vdev :=
  Vdev.mk (some "mirror") (some 0) none none none none (some []) (some []) none none

/-- A node whose `vdev_stats` key is absent. -/
def nodeMissingStats : Vdev :=
  Vdev.mk (some "disk") (some 0) none none none none none (some []) none none

/-- A node whose `vdev_stats_ex` key is absent. -/
def nodeMissingEx : Vdev :=
  Vdev.mk (some "disk") (some 0) none none none none (some []) none none none

/-- A node carrying only `type`, an empty `vdev_stats` and an empty
`vdev_stats_ex`; every optional attribute is absent. -/
def nodeMinimal : Vdev :=
  Vdev.mk (some "disk") none none none none none (some []) (some []) none none

/-- A node whose extended stats hold one entry with an unknown key and a
value of an unexpected dynamic type. -/
def unknownKeyBadValNode : Vdev :=
  Vdev.mk (some "disk") none none none none none (some [])
    (some [("zzz_no_such_stat", ExVal.other "bool")]) none none

/-- The exact value the float accumulator of the histogram loop has gained
over a bucket array whose first entry sits at bucket index `i`: the sum of
`rawCount[j] * midpoint(j)` over the array. -/
def histoAccFrom (i : Nat) : List Nat → ℚ
  | [] => 0
  | v :: rest => (v : ℚ) * (midpointGo i : ℚ) + histoAccFrom (i + 1) rest

/-- A data source whose pool-listing call fails. -/
def dsListFail : DataSource := ⟨Except.error "boom", fun _ => Except.error "unreached"⟩

/-- A data source that lists one pool and fails every per-pool stats call. -/
def dsStatsFail : DataSource := ⟨Except.ok ["tank"], fun _ => Except.error "efault"⟩

/-- The default exporter configuration: depth 1, abbreviated paths. -/
def cfgDefault : Config := ⟨1, false⟩

@[simp] theorem Vdev.typ_mk (t : Option String) (i : Option Nat) (p : Option String)
    (np nd ns : Option Nat) (st : Option (List Nat)) (se : Option (List (String × ExVal)))
    (ss : Option (List Nat)) (c : Option (List Vdev)) :
    (Vdev.mk t i p np nd ns st se ss c).typ = t := rfl

@[simp] theorem Vdev.id_mk (t : Option String) (i : Option Nat) (p : Option String)
    (np nd ns : Option Nat) (st : Option (List Nat)) (se : Option (List (String × ExVal)))
    (ss : Option (List Nat)) (c : Option (List Vdev)) :
    (Vdev.mk t i p np nd ns st se ss c).id = i := rfl

@[simp] theorem Vdev.path_mk (t : Option String) (i : Option Nat) (p : Option String)
    (np nd ns : Option Nat) (st : Option (List Nat)) (se : Option (List (String × ExVal)))
    (ss : Option (List Nat)) (c : Option (List Vdev)) :
    (Vdev.mk t i p np nd ns st se ss c).path = p := rfl

@[simp] theorem Vdev.nparity_mk (t : Option String) (i : Option Nat) (p : Option String)
    (np nd ns : Option Nat) (st : Option (List Nat)) (se : Option (List (String × ExVal)))
    (ss : Option (List Nat)) (c : Option (List Vdev)) :
    (Vdev.mk t i p np nd ns st se ss c).nparity = np := rfl

@[simp] theorem Vdev.draid_ndata_mk (t : Option String) (i : Option Nat) (p : Option String)
    (np nd ns : Option Nat) (st : Option (List Nat)) (se : Option (List (String × ExVal)))
    (ss : Option (List Nat)) (c : Option (List Vdev)) :
    (Vdev.mk t i p np nd ns st se ss c).draid_ndata = nd := rfl

@[simp] theorem Vdev.draid_nspares_mk (t : Option String) (i : Option Nat) (p : Option String)
    (np nd ns : Option Nat) (st : Option (List Nat)) (se : Option (List (String × ExVal)))
    (ss : Option (List Nat)) (c : Option (List Vdev)) :
    (Vdev.mk t i p np nd ns st se ss c).draid_nspares = ns := rfl

@[simp] theorem Vdev.vdev_stats_mk (t : Option String) (i : Option Nat) (p : Option String)
    (np nd ns : Option Nat) (st : Option (List Nat)) (se : Option (List (String × ExVal)))
    (ss : Option (List Nat)) (c : Option (List Vdev)) :
    (Vdev.mk t i p np nd ns st se ss c).vdev_stats = st := rfl

@[simp] theorem Vdev.vdev_stats_ex_mk (t : Option String) (i : Option Nat) (p : Option String)
    (np nd ns : Option Nat) (st : Option (List Nat)) (se : Option (List (String × ExVal)))
    (ss : Option (List Nat)) (c : Option (List Vdev)) :
    (Vdev.mk t i p np nd ns st se ss c).vdev_stats_ex = se := rfl

@[simp] theorem Vdev.scan_stats_mk (t : Option String) (i : Option Nat) (p : Option String)
    (np nd ns : Option Nat) (st : Option (List Nat)) (se : Option (List (String × ExVal)))
    (ss : Option (List Nat)) (c : Option (List Vdev)) :
    (Vdev.mk t i p np nd ns st se ss c).scan_stats = ss := rfl

@[simp] theorem Vdev.children_mk (t : Option String) (i : Option Nat) (p : Option String)
    (np nd ns : Option Nat) (st : Option (List Nat)) (se : Option (List (String × ExVal)))
    (ss : Option (List Nat)) (c : Option (List Vdev)) :
    (Vdev.mk t i p np nd ns st se ss c).children = c := rfl

@[simp] theorem Vdev.setChildren_mk (t : Option String) (i : Option Nat) (p : Option String)
    (np nd ns : Option Nat) (st : Option (List Nat)) (se : Option (List (String × ExVal)))
    (ss : Option (List Nat)) (c0 c : Option (List Vdev)) :
    (Vdev.mk t i p np nd ns st se ss c0).setChildren c = Vdev.mk t i p np nd ns st se ss c := rfl

theorem extStats_names_nonempty : ∀ s ∈ extStats, s.name ≠ "" := by decide

theorem extStatsMapGo_of_absent (k : String) (h : ∀ s ∈ extStats, s.name ≠ k) :
    (extStatsMapGo k).name = "" := by
  have hfind : extStats.find? (fun s => s.name == k) = none :=
    List.find?_eq_none.mpr (fun s hs => by simpa using h s hs)
  simp [extStatsMapGo, hfind]

theorem extStatsMapGo_of_present (k : String) (h : ∃ s ∈ extStats, s.name = k) :
    (extStatsMapGo k).name ≠ "" := by
  obtain ⟨s, hs, rfl⟩ := h
  have hsome : (extStats.find? (fun x => x.name == s.name)).isSome :=
    List.find?_isSome.mpr ⟨s, hs, by simp⟩
  obtain ⟨s', hfind⟩ := Option.isSome_iff_exists.mp hsome
  have h1 : s'.name = s.name := by simpa using List.find?_some hfind
  have h2 : s' ∈ extStats := List.mem_of_find?_eq_some hfind
  simp only [extStatsMapGo, hfind]
  rw [h1]
  exact extStats_names_nonempty s hs

/-- Claim C1: the spec says a raw array shorter than the schema is walked
with no out-of-bounds access even when it ends inside a multi-variant
slot range of a multi-variant entry. The code violates this: a 9-slot raw array ends inside
the 6-variant `ops` entry (slots 8-13), and after emitting slot 8 the inner
variants loop indexes `rawStats[9]` past the end, a Go index-out-of-range
panic. -/
theorem walkVdevStats_oob_midvariant :
    walkVdevStats "vd" "pool" "" (List.replicate 9 0) vdevStats 0
      = Except.error Failure.indexOutOfRange := rfl

/-- Claim C4: a node of type `disk` or `file` with a non-empty parent
identity resolves to exactly the parent identity. -/
theorem vdevName_leaf_inherits (parent : String) (v : Vdev) (t : String)
    (ht : v.typ = some t) (hdf : t = "disk" ∨ t = "file") (hp : parent ≠ "") :
    vdevName parent v = Except.ok parent := by
  cases v
  simp only [Vdev.typ] at ht
  subst ht
  simp [vdevName, hdf, hp]

theorem vdevName_leaf_inherits_witness :
    vdevName "mirror-0" diskNode = Except.ok "mirror-0" :=
  vdevName_leaf_inherits "mirror-0" diskNode "disk" rfl (Or.inl rfl) (by decide)

/-- Claim C5: a draid node resolves to
`prefix ++ type ++ nparity ++ ":" ++ ndata ++ "d:" ++ childCount ++ "c:"
++ nspares ++ "s-" ++ id`, where `childCount` is the number of direct
children and the prefix is empty for no parent, else `parent ++ "/"`. -/
theorem vdevName_draid_format (parent : String) (v : Vdev) (p nd ns i : Nat)
    (kids : List Vdev) (ht : v.typ = some "draid") (hp : v.nparity = some p)
    (hd : v.draid_ndata = some nd) (hs : v.draid_nspares = some ns)
    (hi : v.id = some i) (hk : v.children = some kids) :
    vdevName parent v = Except.ok
      ((if parent ≠ "" then parent ++ "/" else parent) ++ "draid" ++ toString p ++ ":"
        ++ toString nd ++ "d:" ++ toString kids.length ++ "c:" ++ toString ns
        ++ "s-" ++ toString i) := by
  cases v
  simp only [Vdev.typ, Vdev.nparity, Vdev.draid_ndata, Vdev.draid_nspares, Vdev.id,
    Vdev.children] at ht hp hd hs hi hk
  subst ht hp hd hs hi hk
  simp [vdevName, fmtD]

theorem vdevName_draid_format_witness :
    vdevName "" draidNode = Except.ok "draid1:8d:10c:2s-0" := by
  have h := vdevName_draid_format "" draidNode 1 8 2 0 (List.replicate 10 diskNode)
    rfl rfl rfl rfl rfl rfl
  rw [h]
  rfl

/-- Claim C8: an extended-stat key absent from the static descriptor table
contributes no metrics and no error, whatever its value is: the walk of a
map starting with such an entry equals the walk without the entry. -/
theorem extStatsWalk_unknown_key_skipped (vdName poolName path k : String)
    (val : ExVal) (rest : List (String × ExVal))
    (hunk : ∀ s ∈ extStats, s.name ≠ k) :
    extStatsWalk vdName poolName path ((k, val) :: rest)
      = extStatsWalk vdName poolName path rest := by
  have hname : (extStatsMapGo k).name = "" := extStatsMapGo_of_absent k hunk
  simp [extStatsWalk, hname]

theorem extStatsWalk_unknown_key_skipped_witness :
    extStatsWalk "vd" "pool" "" [("future_stat", ExVal.other "bool")]
      = extStatsWalk "vd" "pool" "" [] :=
  extStatsWalk_unknown_key_skipped "vd" "pool" "" "future_stat" (ExVal.other "bool") []
    (by decide)

/-- Claim C7 counterexample: an extended-stats entry whose value has an
unexpected dynamic type but whose key is unknown is silently skipped, not
fatal — emission of the node completes with no metrics and no error. -/
theorem reportVdevStats_unknown_bad_value_not_fatal :
    reportVdevStats true "pool" "disk-0" unknownKeyBadValNode = Except.ok [] := rfl

/-- Claim C10: resolving the identity of a draid node dereferences
`children` (absent `children` is a failed type assertion), while for a node
of any other type the result is independent of the `children` attribute. -/
theorem vdevName_children_use (parent : String) (v : Vdev) :
    (v.typ = some "draid" → v.children = none →
      vdevName parent v = Except.error Failure.typeAssert)
    ∧ (∀ t, v.typ = some t → t ≠ "draid" → ∀ c c',
        vdevName parent (v.setChildren c) = vdevName parent (v.setChildren c')) := by
  cases v
  constructor
  · intro ht hc
    simp only [Vdev.typ] at ht
    simp only [Vdev.children] at hc
    subst ht hc
    simp [vdevName]
  · intro t ht hne c c'
    simp only [Vdev.typ] at ht
    subst ht
    simp only [Vdev.setChildren, vdevName, Vdev.typ, Vdev.nparity, Vdev.draid_ndata,
      Vdev.draid_nspares, Vdev.id, Vdev.children]
    split_ifs <;> simp_all

theorem vdevName_children_use_witness :
    vdevName "tank" draidNoChildren = Except.error Failure.typeAssert
    ∧ vdevName "" (mirrorNode.setChildren none)
        = vdevName "" (mirrorNode.setChildren (some [diskNode])) :=
  ⟨(vdevName_children_use "tank" draidNoChildren).1 rfl rfl,
   (vdevName_children_use "" mirrorNode).2 "mirror" rfl (by decide) none
     (some [diskNode])⟩

/-- Claim C2 counterexample: decoding `[1, 0, 0]` (one count in bucket 0,
divisor 1) yields total count 1 but approximate sum `1`, not the
`1.5/divisor = 3/2` the claim requires: the midpoint of bucket 0 is computed in
Go integer arithmetic as `(1 << 0) + ((1 << 0) / 2) = 1 + 0 = 1`. -/
theorem decodeHistogram_bucket0_not_threehalves :
    (decodeHistogram [1, 0, 0]).count = 1
    ∧ (decodeHistogram [1, 0, 0]).sum = 1
    ∧ (decodeHistogram [1, 0, 0]).sum ≠ 3 / 2 := by
  refine ⟨rfl, ?_, ?_⟩ <;> norm_num [decodeHistogram, histoLoop, midpointGo]

/-- Claim C2 amended: the decoder computes the midpoint of bucket `i` in integer
arithmetic as `(1 << i) + ((1 << i) / 2)`, which equals `2^i + 2^(i-1)`
(that is, `1.5 * 2^i`) for every index `i ≥ 1` but equals `1` for bucket 0;
decoding `[1, 0, 0]` therefore yields total count 1 and approximate sum
exactly `1/divisor = 1`. -/
theorem midpointGo_spec (i : Nat) (h : 1 ≤ i) :
    midpointGo i = 2 ^ i + 2 ^ (i - 1)
    ∧ midpointGo 0 = 1
    ∧ (decodeHistogram [1, 0, 0]).count = 1
    ∧ (decodeHistogram [1, 0, 0]).sum = 1 := by
  refine ⟨?_, rfl, rfl, by norm_num [decodeHistogram, histoLoop, midpointGo]⟩
  obtain ⟨k, rfl⟩ : ∃ k, i = k + 1 := ⟨i - 1, by omega⟩
  rw [midpointGo, Nat.one_shiftLeft]
  have h2 : 2 ^ (k + 1) / 2 = 2 ^ k := by
    rw [Nat.pow_succ]
    exact Nat.mul_div_cancel _ (by norm_num)
  rw [h2]
  simp

theorem midpointGo_spec_witness :
    midpointGo 5 = 2 ^ 5 + 2 ^ (5 - 1)
    ∧ midpointGo 0 = 1
    ∧ (decodeHistogram [1, 0, 0]).count = 1
    ∧ (decodeHistogram [1, 0, 0]).sum = 1 :=
  midpointGo_spec 5 (by norm_num)

theorem collectPools_error_of_mem (cfg : Config) (ds : DataSource) (p e : String)
    (hp : ds.poolStats p = Except.error e) :
    ∀ pools, p ∈ pools → ∃ f, collectPools cfg ds pools = Except.error f := by
  intro pools hmem
  induction pools with
  | nil => cases hmem
  | cons q rest ih =>
    rcases List.mem_cons.mp hmem with h | h
    · subst h
      have hq : collectPool cfg ds p = Except.error (Failure.dsError e) := by
        simp [collectPool, hp]
      exact ⟨Failure.dsError e, by simp [collectPools, hq]⟩
    · obtain ⟨f, hf⟩ := ih h
      cases hq : collectPool cfg ds q with
      | error e' => exact ⟨e', by simp [collectPools, hq]⟩
      | ok ms => exact ⟨f, by simp [collectPools, hq, hf]⟩

/-- Claim C3: a failing pool-listing call makes the pass fatal with that
failure, and a failing per-pool stats call for any discovered pool makes
the pass fatal: either way `collect` produces a failure and no metrics
response for the scrape. -/
theorem collect_fatal_on_failure (cfg : Config) (ds : DataSource) :
    (∀ e, ds.poolConfigs = Except.error e →
      collect cfg ds = Except.error (Failure.dsError e))
    ∧ (∀ pools p e, ds.poolConfigs = Except.ok pools → p ∈ pools →
        ds.poolStats p = Except.error e → ∃ f, collect cfg ds = Except.error f) := by
  constructor
  · intro e he
    simp [collect, he]
  · intro pools p e hc hm hp
    obtain ⟨f, hf⟩ := collectPools_error_of_mem cfg ds p e hp pools hm
    exact ⟨f, by simp [collect, hc, hf]⟩

theorem collect_fatal_on_failure_witness :
    collect cfgDefault dsListFail = Except.error (Failure.dsError "boom")
    ∧ ∃ f, collect cfgDefault dsStatsFail = Except.error f :=
  ⟨(collect_fatal_on_failure cfgDefault dsListFail).1 "boom" rfl,
   (collect_fatal_on_failure cfgDefault dsStatsFail).2 ["tank"] "tank" "efault" rfl
     (List.mem_singleton.mpr rfl) rfl⟩

/-- Claim C7 amended: an extended-stats entry whose key IS present in the
static descriptor table and whose value is neither a scalar nor a bucket
array makes the extended-stats walk of node stat emission fatal
(`log.Fatalf`), wherever the entry sits in the map. (As stated the claim is
false: an entry with an unknown key is skipped before the type of its value is
ever examined — see the counterexample.) -/
theorem extStatsWalk_known_bad_value_fatal (vdName poolName path k t : String)
    (l : List (String × ExVal)) (hmem : (k, ExVal.other t) ∈ l)
    (hk : ∃ s ∈ extStats, s.name = k) :
    ∃ msg, extStatsWalk vdName poolName path l = Except.error (Failure.fatalLog msg) := by
  have hname : (extStatsMapGo k).name ≠ "" := extStatsMapGo_of_present k hk
  induction l with
  | nil => cases hmem
  | cons hd rest ih =>
    obtain ⟨n, val⟩ := hd
    rcases List.mem_cons.mp hmem with heq | hmem'
    · injection heq with h1 h2
      subst h1
      subst h2
      exact ⟨"invalid type encountered: " ++ t, by simp [extStatsWalk, hname]⟩
    · obtain ⟨msg, hmsg⟩ := ih hmem'
      by_cases hn : (extStatsMapGo n).name = ""
      · exact ⟨msg, by simp [extStatsWalk, hn, hmsg]⟩
      · cases val with
        | scalar x => exact ⟨msg, by simp [extStatsWalk, hn, hmsg]⟩
        | histo hh => exact ⟨msg, by simp [extStatsWalk, hn, hmsg]⟩
        | other t2 => exact ⟨"invalid type encountered: " ++ t2, by simp [extStatsWalk, hn]⟩

theorem extStatsWalk_known_bad_value_fatal_witness :
    ∃ msg, extStatsWalk "vd" "pool" "" [("vdev_agg_scrub_histo", ExVal.other "bool")]
      = Except.error (Failure.fatalLog msg) :=
  extStatsWalk_known_bad_value_fatal "vd" "pool" "" "vdev_agg_scrub_histo" "bool" _
    (List.mem_singleton.mpr rfl) (by decide)

/-- Claim C9: node stat emission hard-asserts `vdev_stats` and
`vdev_stats_ex`: a node missing `vdev_stats` dies on the first assertion,
a node missing `vdev_stats_ex` can never complete emission, while
`children`, `nparity` and `path` are optional — a node carrying only
`type` and the two stats attributes is emitted successfully with the
optional fields skipped. -/
theorem reportVdevStats_required_attrs (fullPath : Bool) (pool nm : String) (v : Vdev) :
    (v.vdev_stats = none →
      reportVdevStats fullPath pool nm v = Except.error Failure.typeAssert)
    ∧ (v.vdev_stats_ex = none → ∀ ms, reportVdevStats fullPath pool nm v ≠ Except.ok ms)
    ∧ (v.children = none → v.nparity = none → v.path = none → v.typ = some "disk" →
        v.vdev_stats = some [] → v.vdev_stats_ex = some [] →
        reportVdevStats fullPath pool nm v = Except.ok []) := by
  obtain ⟨t, i, p, np, nd, ns, st, se, ss, c⟩ := v
  refine ⟨?_, ?_, ?_⟩
  · intro h
    simp only [Vdev.vdev_stats_mk] at h
    subst h
    rfl
  · intro h ms
    simp only [Vdev.vdev_stats_ex_mk] at h
    subst h
    cases st with
    | none => simp [reportVdevStats]
    | some raw =>
      cases t with
      | none => simp [reportVdevStats]
      | some typ =>
        simp only [reportVdevStats, Vdev.children_mk, Vdev.nparity_mk, Vdev.vdev_stats_mk,
          Vdev.typ_mk, Vdev.path_mk, Vdev.vdev_stats_ex_mk]
        cases hw : walkVdevStats nm pool (resolvePath fullPath typ p) raw vdevStats 0 with
        | error e => simp [hw]
        | ok pms => simp [hw]
  · intro hc hnp hpth ht hst hse
    simp only [Vdev.children_mk, Vdev.nparity_mk, Vdev.path_mk, Vdev.typ_mk,
      Vdev.vdev_stats_mk, Vdev.vdev_stats_ex_mk] at hc hnp hpth ht hst hse
    subst hc hnp hpth ht hst hse
    rfl

theorem reportVdevStats_required_attrs_witness :
    reportVdevStats true "pool" "vd" nodeMissingStats = Except.error Failure.typeAssert
    ∧ reportVdevStats true "pool" "vd" nodeMissingEx ≠ Except.ok []
    ∧ reportVdevStats true "pool" "vd" nodeMinimal = Except.ok [] :=
  ⟨(reportVdevStats_required_attrs true "pool" "vd" nodeMissingStats).1 rfl,
   (reportVdevStats_required_attrs true "pool" "vd" nodeMissingEx).2.1 rfl [],
   (reportVdevStats_required_attrs true "pool" "vd" nodeMinimal).2.2 rfl rfl rfl rfl rfl rfl⟩

theorem histoLoop_buckets_fst (d : ℚ) (l : List Nat) : ∀ (i c : Nat) (a : ℚ),
    ((histoLoop d l i c a).1).map Prod.fst
      = (List.range l.length).map (fun j => (2 : ℚ) ^ (i + j) / d) := by
  induction l with
  | nil => intro i c a; simp [histoLoop]
  | cons v rest ih =>
    intro i c a
    simp only [histoLoop, List.map_cons, List.length_cons, List.range_succ_eq_map,
      List.map_map]
    congr 1
    rw [ih]
    apply List.map_congr_left
    intro j hj
    simp only [Function.comp_apply]
    have hij : i + 1 + j = i + (j + 1) := by omega
    rw [hij]

theorem histoLoop_buckets_snd (d : ℚ) (l : List Nat) : ∀ (i c : Nat) (a : ℚ),
    ((histoLoop d l i c a).1).map Prod.snd
      = (List.range l.length).map (fun j => (c + (l.take (j + 1)).sum) % 2 ^ 64) := by
  induction l with
  | nil => intro i c a; simp [histoLoop]
  | cons v rest ih =>
    intro i c a
    simp only [histoLoop, List.map_cons, List.length_cons, List.range_succ_eq_map,
      List.map_map]
    congr 1
    rw [ih]
    apply List.map_congr_left
    intro j hj
    simp only [Function.comp_apply, List.take_succ_cons, List.sum_cons]
    rw [Nat.mod_add_mod, Nat.add_assoc]

theorem histoLoop_acc (d : ℚ) (l : List Nat) : ∀ (i c : Nat) (a : ℚ),
    (histoLoop d l i c a).2.2 = a + histoAccFrom i l := by
  induction l with
  | nil => intro i c a; simp [histoLoop, histoAccFrom]
  | cons v rest ih =>
    intro i c a
    simp only [histoLoop, histoAccFrom]
    rw [ih]
    ring

/-- Claim C6: the decoder records, for bucket index `i`, the cumulative
count of the first `i + 1` raw entries at upper bound `2^i * 1e-9` when the
input has exactly 37 entries and at upper bound `2^i` otherwise, and the
approximate sum is the midpoint accumulator divided by the same divisor
(`1e9` for 37 entries, `1` otherwise). -/
theorem decodeHistogram_bounds (histo : List Nat) :
    ((decodeHistogram histo).buckets.map Prod.fst
       = (List.range histo.length).map
           (fun i => if histo.length = 37 then (2 : ℚ) ^ i * (1 / 1000000000)
                     else (2 : ℚ) ^ i))
    ∧ ((decodeHistogram histo).buckets.map Prod.snd
       = (List.range histo.length).map (fun i => (histo.take (i + 1)).sum % 2 ^ 64))
    ∧ (decodeHistogram histo).sum
       = histoAccFrom 0 histo / (if histo.length = 37 then (1000000000 : ℚ) else 1) := by
  have hb : (decodeHistogram histo).buckets
      = (histoLoop (if histo.length = 37 then (1000000000 : ℚ) else 1) histo 0 0 0).1 := rfl
  have hs : (decodeHistogram histo).sum
      = (histoLoop (if histo.length = 37 then (1000000000 : ℚ) else 1) histo 0 0 0).2.2
        / (if histo.length = 37 then (1000000000 : ℚ) else 1) := rfl
  refine ⟨?_, ?_, ?_⟩
  · rw [hb, histoLoop_buckets_fst]
    by_cases h : histo.length = 37
    · simp only [h, if_pos]
      apply List.map_congr_left
      intro j hj
      rw [Nat.zero_add, div_eq_mul_one_div]
    · simp only [h, if_neg, ite_false]
      apply List.map_congr_left
      intro j hj
      rw [Nat.zero_add, div_one]
  · rw [hb, histoLoop_buckets_snd]
    simp
  · rw [hs, histoLoop_acc, zero_add]
